import Mathlib

/-!
Verification of the request-serialization and job-dispatch subsystem of the
Telegram AI bot (source files `handlers.py`, `db_utils.py`, `config.py`).

The Python source is shallowly embedded: pure computations become Lean
functions, the external nondeterminism (backend completion outcome, platform
edit outcome) becomes explicit input parameters, and the single-consumer
queue machinery becomes a small-step transition system.  Definitions come
first, then the lemmas and claim theorems about them.
-/

namespace TelegramAIBot

/-- A chat-completion message, mirroring the `{"role": ..., "content": ...}`
dicts built throughout `handlers.py` and `db_utils.py`. -/
structure Msg where
  role : String
  content : String
deriving DecidableEq, Repr

/-! ## Python string primitives

The functions `pyStrip` and `pyIn` embed Python's `str.strip()` (drop
whitespace from both ends) and Python's substring test `pat in s`, both
used by `_get_ai_response` and `process_chat_job`. -/

/-- The character-list body of Python `str.strip()`: drop leading
whitespace, then drop trailing whitespace. -/
def pyStripL (l : List Char) : List Char :=
  ((l.dropWhile Char.isWhitespace).reverse.dropWhile Char.isWhitespace).reverse

/-- Python `s.strip()`. -/
def pyStrip (s : String) : String :=
  String.mk (pyStripL s.data)

/-- Substring containment on character lists: some suffix of `s` starts
with `pat`.  (The empty pattern is contained in every string, as in
Python.) -/
def containsSub (pat : List Char) : List Char → Bool
  | [] => pat.isEmpty
  | c :: rest => pat.isPrefixOf (c :: rest) || containsSub pat rest

/-- Python `pat in s` (substring containment). -/
def pyIn (pat s : String) : Bool :=
  containsSub pat.data s.data

/-- Holds iff the string is non-empty and its first character is not
whitespace (so Python `strip` leaves the left edge alone). -/
def headNonWS (s : String) : Bool :=
  match s.data.head? with
  | some c => !c.isWhitespace
  | none => false

/-- Holds iff the string is non-empty and its last character is not
whitespace (so Python `strip` leaves the right edge alone). -/
def lastNonWS (s : String) : Bool :=
  match s.data.getLast? with
  | some c => !c.isWhitespace
  | none => false

/-! ## Configuration (`config.py`)

Read once at startup, immutable for the process lifetime. -/

def MAX_HISTORY_MESSAGES : Nat := 10

def MAX_RESPONSE_TOKENS : Nat := 1024

def TELEGRAM_MAX_MESSAGE_LENGTH : Nat := 4096

def MASTER_MEMORY_SWITCH : Bool := true

def MEMORY_CONSOLIDATION_INTERVAL : Nat := 15

/-! ## Backend Client (`_get_ai_response` in `handlers.py`)

The completion call `lm_studio_client.chat.completions.create` can succeed
with some content or raise `APITimeoutError`, `APIConnectionError`, or any
other exception; which of these happens is external nondeterminism, passed
in as an `ApiOutcome`. -/

/-- The fault kinds distinguished by the `except` clauses of
`_get_ai_response`: `APITimeoutError`, `APIConnectionError`, and the
catch-all `Exception` (which also covers malformed responses). -/
inductive ApiFault
  | timeoutFault
  | connectionFault
  | unexpectedFault
deriving DecidableEq, Repr

/-- Outcome of one attempted completion call against the inference
server. -/
inductive ApiOutcome
  | success (content : String)
  | timeoutErr
  | connectionErr
  | unexpectedErr
deriving DecidableEq, Repr

/-- The outcome in which the raw call raises the given fault. -/
def ApiOutcome.ofFault : ApiFault → ApiOutcome
  | ApiFault.timeoutFault => ApiOutcome.timeoutErr
  | ApiFault.connectionFault => ApiOutcome.connectionErr
  | ApiFault.unexpectedFault => ApiOutcome.unexpectedErr

/-- The raw `chat.completions.create` call: returns the completion content
or raises a fault.  The `_messages` and `_stop` arguments are recorded
(they are sent on the wire) but the outcome is the external server's
choice. -/
def rawCompletionCall (_messages : List Msg) (_stop : List String)
    (outcome : ApiOutcome) : Except ApiFault String :=
  match outcome with
  | ApiOutcome.success content => Except.ok content
  | ApiOutcome.timeoutErr => Except.error ApiFault.timeoutFault
  | ApiOutcome.connectionErr => Except.error ApiFault.connectionFault
  | ApiOutcome.unexpectedErr => Except.error ApiFault.unexpectedFault

def clientNotInitializedMessage : String := "AI client not initialized."

def timeoutMessage : String :=
  "I'm sorry, my thinking process timed out. The AI model might be very busy. Please try again in a moment."

def connectionMessage : String :=
  "I'm having trouble connecting to the AI model right now. Please ensure LM Studio is running correctly."

def criticalMessage : String := "A critical error occurred while I was thinking."

/-- The pre-defined user-safe message each fault kind is translated to. -/
def faultMessage : ApiFault → String
  | ApiFault.timeoutFault => timeoutMessage
  | ApiFault.connectionFault => connectionMessage
  | ApiFault.unexpectedFault => criticalMessage

/-- The stop sequences `_get_ai_response` derives from the user's display
name: `["\n{name}:", "\n*{name}"]`. -/
def stopSequenceFor (userDisplayName : String) : List String :=
  ["\n" ++ userDisplayName ++ ":", "\n*" ++ userDisplayName]

/-- Embedding of `_get_ai_response(messages, user_display_name)`.  Every
code path returns a string: the try/except translates each fault into its
fixed message, and a missing client short-circuits to
`clientNotInitializedMessage`.  On success the content is `strip()`ed. -/
def get_ai_response (clientOk : Bool) (messages : List Msg)
    (userDisplayName : String) (outcome : ApiOutcome) : String :=
  if clientOk = false then clientNotInitializedMessage
  else
    let stop := stopSequenceFor userDisplayName
    match rawCompletionCall messages stop outcome with
    | Except.ok content => pyStrip content
    | Except.error ApiFault.timeoutFault => timeoutMessage
    | Except.error ApiFault.connectionFault => connectionMessage
    | Except.error ApiFault.unexpectedFault => criticalMessage

/-! ## Result Delivery (`send_final_response` in `handlers.py`)

Delivery either edits the placeholder message or posts new messages,
splitting text that exceeds `TELEGRAM_MAX_MESSAGE_LENGTH`.  The platform's
reaction to the edit attempt (`BadRequest` with or without
"Message is not modified") is external nondeterminism. -/

/-- Outcome of the `placeholder.edit_text` attempt, decided by the
platform. -/
inductive EditResult
  | ok
  | notModified
  | failedOther
deriving DecidableEq, Repr

/-- One outbound delivery performed by `send_final_response`. -/
inductive SendAction
  | editPlaceholder (text : String)
  | post (text : String)
deriving DecidableEq, Repr

/-- The Python list comprehension
`[final_text[i:i + L] for i in range(0, len(final_text), L)]`:
one slice of width `L` per index in `range(0, len, L)`, whose index count
is `ceil(len / L)`. -/
def sliceChunks (l : List Char) (L : Nat) : List (List Char) :=
  (List.range ((l.length + L - 1) / L)).map
    (fun i => List.take L (List.drop (i * L) l))

def emptyResponseNotice : String := "<i>(The AI returned an empty response.)</i>"

/-- The fallback branch of `send_final_response`: reply with one message if
the text fits, otherwise reply with each fixed-size part in order. -/
def postParts (finalText : String) : List SendAction :=
  if finalText.length ≤ TELEGRAM_MAX_MESSAGE_LENGTH then
    [SendAction.post finalText]
  else
    (sliceChunks finalText.data TELEGRAM_MAX_MESSAGE_LENGTH).map
      (fun part => SendAction.post (String.mk part))

/-- Embedding of `send_final_response(update, final_text, placeholder)`:
the list of outbound sends it performs, in order.  Empty text is first
replaced by the placeholder notice; a successful edit delivers exactly the
edit; a "Message is not modified" failure returns without sending anything;
any other edit failure falls back to posting. -/
def send_final_response (finalText : String) (hasPlaceholder : Bool)
    (editResult : EditResult) : List SendAction :=
  let t := if finalText = "" then emptyResponseNotice else finalText
  if hasPlaceholder then
    match editResult with
    | EditResult.ok => [SendAction.editPlaceholder t]
    | EditResult.notModified => []
    | EditResult.failedOther => postParts t
  else postParts t

/-! ## Persistence collaborator (`db_utils.py`)

Only the summary row matters to the claims: `update_summary` does
`INSERT OR REPLACE`, so the stored value for a chat is simply replaced;
`get_summary` reads it back (`none` when no row exists). -/

/-- Embedding of `db_utils.update_summary`: replace the stored summary row
wholesale. -/
def update_summary (_store : Option String) (newSummaryText : String) :
    Option String :=
  some newSummaryText

/-- Embedding of `db_utils.get_summary`. -/
def get_summary (store : Option String) : Option String := store

/-! ## Chat handler (`process_chat_job` in `handlers.py`) -/

/-- The per-job data `process_chat_job` reads from the job record, the
framework context and the database. -/
structure ChatJobInput where
  userText : String
  userDisplayName : String
  systemPrompt : String
  hasPlaceholder : Bool
  recentHistory : List Msg
  totalMessages : Nat
  memEnabled : Bool
  storedSummary : Option String
deriving DecidableEq, Repr

/-- The observable effects of one `process_chat_job` run. -/
structure ChatJobEffects where
  /-- The assembled message list sent to the Backend Client. -/
  messagesSent : List Msg
  /-- The Result Delivery actions, in order. -/
  delivered : List SendAction
  /-- The `add_message_to_db` calls, in order. -/
  persisted : List Msg
  /-- Whether a `consolidate_memory` job was put on the queue. -/
  consolidationEnqueued : Bool
deriving DecidableEq, Repr

/-- The prompt list `process_chat_job` assembles: recent history, the
optional `(Memory: ...)` preamble inserted at index 0, and the new user
message, system-framed iff this is the conversation's first turn. -/
def chatPromptMessages (inp : ChatJobInput) : List Msg :=
  let messages := inp.recentHistory
  let messages :=
    if inp.memEnabled then
      match get_summary inp.storedSummary with
      | some summary =>
          if summary = "" then messages
          else Msg.mk "system" ("(Memory: " ++ summary ++ ")") :: messages
      | none => messages
    else messages
  if inp.recentHistory = [] then
    messages ++ [Msg.mk "user" (inp.systemPrompt ++ "\n\n" ++ inp.userText)]
  else
    messages ++ [Msg.mk "user" inp.userText]

/-- The success test
`ai_response and "error" not in ai_response and "timed out" not in
ai_response` that gates persistence (and hence the consolidation check). -/
def persistGuard (aiResponse : String) : Bool :=
  (!(aiResponse == "")) && !(pyIn "error" aiResponse)
    && !(pyIn "timed out" aiResponse)

/-- The consolidation trigger
`is_memory_enabled and (total_messages + 2) % MEMORY_CONSOLIDATION_INTERVAL
== 0 and total_messages > 0`, evaluated inside the persistence branch. -/
def consolidationDue (memEnabled : Bool) (totalMessages : Nat) : Bool :=
  memEnabled && ((totalMessages + 2) % MEMORY_CONSOLIDATION_INTERVAL == 0)
    && decide (totalMessages > 0)

/-- Embedding of `process_chat_job(job, application)`: assemble the prompt,
call the Backend Client, always deliver, and persist the turn plus evaluate
the consolidation trigger only when the reply passes `persistGuard`. -/
def process_chat_job (inp : ChatJobInput) (clientOk : Bool)
    (outcome : ApiOutcome) (editResult : EditResult) : ChatJobEffects :=
  let messages := chatPromptMessages inp
  let aiResponse := get_ai_response clientOk messages inp.userDisplayName outcome
  { messagesSent := messages
    delivered := send_final_response aiResponse inp.hasPlaceholder editResult
    persisted :=
      if persistGuard aiResponse then
        [Msg.mk "user" inp.userText, Msg.mk "assistant" aiResponse]
      else []
    consolidationEnqueued :=
      persistGuard aiResponse
        && consolidationDue inp.memEnabled inp.totalMessages }

/-! ## Memory consolidation handler (`process_memory_job` in `handlers.py`) -/

/-- The summarization instruction appended after the full transcript. -/
def memoryPromptContent : String :=
  "You are a memory consolidation module. Analyze the preceding conversation. Create a concise, third-person, past-tense summary of the key plot points, character decisions, and newly established facts. Ignore conversational filler. The summary must be objective and factual based only on the text provided. This summary will serve as long-term memory."

/-- The observable effects of one `process_memory_job` run. -/
structure MemoryJobResult where
  /-- The summary row after the run. -/
  stored : Option String
  /-- Whether the "(A new memory has been formed.)" notice was sent. -/
  noticeSent : Bool
  /-- Whether the handler re-enqueued a consolidation job (it never
  does). -/
  retryEnqueued : Bool
deriving DecidableEq, Repr

/-- Embedding of `process_memory_job(job, application)`: load the full
history, bail out if empty, call the Backend Client on transcript +
instruction, and if the returned string is non-empty concatenate it onto
the existing summary (`f"{old_summary}\n\n{summary}"` when one exists),
`strip()` it, persist it and send the notice. -/
def process_memory_job (fullHistory : List Msg) (store : Option String)
    (clientOk : Bool) (userDisplayName : String) (outcome : ApiOutcome) :
    MemoryJobResult :=
  if fullHistory = [] then
    { stored := store, noticeSent := false, retryEnqueued := false }
  else
    let messages := fullHistory ++ [Msg.mk "user" memoryPromptContent]
    let summary := get_ai_response clientOk messages userDisplayName outcome
    if summary = "" then
      { stored := store, noticeSent := false, retryEnqueued := false }
    else
      let oldSummary := get_summary store
      let newSummary :=
        match oldSummary with
        | some old => if old = "" then summary else old ++ "\n\n" ++ summary
        | none => summary
      { stored := update_summary store (pyStrip newSummary)
        noticeSent := true
        retryEnqueued := false }

/-! ## Job Queue and Dispatcher (`REQUEST_QUEUE` and `ai_worker`)

`REQUEST_QUEUE = asyncio.Queue()` is an unbounded FIFO queue with one
consumer, the `ai_worker` loop.  Producers (`chat_handler`,
`generate_surprise_scene`, `generate_surprise_persona`,
`_consolidate_memory`) call `REQUEST_QUEUE.put`, which appends at the tail;
`REQUEST_QUEUE.get` removes at the head.  The system is modelled as a
small-step transition relation over the cooperative scheduler's
interleavings: producer enqueues may happen at any time, while the single
worker dequeues one job, runs its handler — whose only suspension point is
the awaited Backend Client call — to completion, and only then dequeues
again. -/

/-- The `"type"` tag of a job dict, as produced by the four producers. -/
inductive JobKind
  | chat
  | generateScene
  | generatePersona
  | consolidateMemory
deriving DecidableEq, Repr

/-- One job record on `REQUEST_QUEUE`. -/
structure Job where
  kind : JobKind
  chatId : Nat
  payload : String
deriving DecidableEq, Repr

/-- Where the single `ai_worker` task currently is. -/
inductive WorkerPhase
  /-- Blocked in `await REQUEST_QUEUE.get()`. -/
  | waiting
  /-- Inside a handler for `j`, before the Backend Client call. -/
  | assembling (j : Job)
  /-- Awaiting the Backend Client completion for `j`. -/
  | calling (j : Job)
  /-- Backend returned; running the handler's remaining side effects. -/
  | finishing (j : Job)
deriving DecidableEq, Repr

/-- Global state of the queue/dispatcher subsystem, with two ghost fields:
`started` records the jobs whose handler has been dispatched, in dispatch
order, and `enqueued` records every job ever enqueued, in enqueue order.
`inflight` is the fake Backend Client's concurrent-call counter. -/
structure SysState where
  queue : List Job
  phase : WorkerPhase
  inflight : Nat
  started : List Job
  enqueued : List Job
deriving DecidableEq, Repr

/-- Process start: empty queue, worker listening. -/
def initState : SysState :=
  { queue := [], phase := WorkerPhase.waiting, inflight := 0,
    started := [], enqueued := [] }

/-- One interleaving step of the system. -/
inductive Step : SysState → SysState → Prop
  /-- A producer runs `REQUEST_QUEUE.put(j)`: append at the tail, at any
  time. -/
  | enqueue (s : SysState) (j : Job) :
      Step s { s with queue := s.queue ++ [j], enqueued := s.enqueued ++ [j] }
  /-- The worker's `await REQUEST_QUEUE.get()` returns: it takes the head
  job and enters its handler. -/
  | dequeue (s : SysState) (j : Job) (rest : List Job) :
      s.phase = WorkerPhase.waiting → s.queue = j :: rest →
      Step s { s with queue := rest, phase := WorkerPhase.assembling j,
                      started := s.started ++ [j] }
  /-- The handler issues its Backend Client completion call. -/
  | beginCall (s : SysState) (j : Job) :
      s.phase = WorkerPhase.assembling j →
      Step s { s with phase := WorkerPhase.calling j,
                      inflight := s.inflight + 1 }
  /-- The awaited Backend Client call returns. -/
  | endCall (s : SysState) (j : Job) :
      s.phase = WorkerPhase.calling j →
      Step s { s with phase := WorkerPhase.finishing j,
                      inflight := s.inflight - 1 }
  /-- The handler finishes (normally or by a caught fault); the worker
  loops back to `REQUEST_QUEUE.get()`. -/
  | completeJob (s : SysState) (j : Job) :
      s.phase = WorkerPhase.finishing j →
      Step s { s with phase := WorkerPhase.waiting }

/-- States reachable from process start. -/
inductive Reachable : SysState → Prop
  | init : Reachable initState
  | step {s t : SysState} : Reachable s → Step s t → Reachable t

/-- The in-flight count determined by the worker's position. -/
def phaseInflight : WorkerPhase → Nat
  | WorkerPhase.calling _ => 1
  | _ => 0

/-! ## Fault isolation in the `ai_worker` loop

The worker body wraps the dispatch (`process_chat_job` / ... ) in a
`try: ... except Exception: logger.error(...)`, so a handler fault is
caught at the dispatch boundary and the `while True` loop proceeds to the
next `get()`.  The oracle `handlerRaises` is the external choice of which
handlers fault. -/

/-- Events observable from one worker loop iteration. -/
inductive WorkerEvent
  /-- The worker dequeued `j` and dispatched its handler. -/
  | ran (j : Job)
  /-- The handler for `j` raised; the exception was caught and logged. -/
  | loggedError (j : Job)
deriving DecidableEq, Repr

/-- The `ai_worker` loop consuming a queue whose jobs are `jobs`, under the
fault oracle `handlerRaises`: each iteration dequeues the head, dispatches
it, and on a raise logs the error and continues with the next job. -/
def ai_worker_run (handlerRaises : Job → Bool) : List Job → List WorkerEvent
  | [] => []
  | j :: rest =>
      (if handlerRaises j then [WorkerEvent.ran j, WorkerEvent.loggedError j]
       else [WorkerEvent.ran j]) ++ ai_worker_run handlerRaises rest

/-- The jobs dispatched, in dispatch order. -/
def ranJobs : List WorkerEvent → List Job
  | [] => []
  | WorkerEvent.ran j :: es => j :: ranJobs es
  | WorkerEvent.loggedError _ :: es => ranJobs es

/-! ## Concrete example data used by the witnesses -/

def jobA : Job := { kind := JobKind.chat, chatId := 1, payload := "hello" }

def jobB : Job :=
  { kind := JobKind.generateScene, chatId := 2, payload := "prompt" }

def c1ExState : SysState :=
  { queue := [jobB], phase := WorkerPhase.assembling jobA, inflight := 0,
    started := [jobA], enqueued := [jobA, jobB] }

def c2ExState : SysState :=
  { queue := [], phase := WorkerPhase.calling jobA, inflight := 1,
    started := [jobA], enqueued := [jobA] }

def c4ExInput : ChatJobInput :=
  { userText := "hello", userDisplayName := "Alice", systemPrompt := "sys",
    hasPlaceholder := true, recentHistory := [], totalMessages := 13,
    memEnabled := true, storedSummary := none }

def c5ExInput : ChatJobInput :=
  { userText := "hello", userDisplayName := "Alice", systemPrompt := "sys",
    hasPlaceholder := false,
    recentHistory := [Msg.mk "user" "a", Msg.mk "assistant" "b"],
    totalMessages := 2, memEnabled := true, storedSummary := none }

def c6ExHistory1 : List Msg := [Msg.mk "user" "x", Msg.mk "assistant" "y"]

def c6ExHistory2 : List Msg := [Msg.mk "user" "p", Msg.mk "assistant" "q"]

def c9BigText : String := String.mk (List.replicate 10000 'a')

def c10ExInput : ChatJobInput :=
  { userText := "hi", userDisplayName := "Alice", systemPrompt := "sys",
    hasPlaceholder := false,
    recentHistory := [Msg.mk "user" "a", Msg.mk "assistant" "b"],
    totalMessages := 2, memEnabled := true, storedSummary := none }

/-! ## Lemmas about Python `strip` -/

theorem dropWhile_ws_eq_self {l : List Char} {c : Char}
    (hh : l.head? = some c) (hc : c.isWhitespace = false) :
    l.dropWhile Char.isWhitespace = l := by
  cases l with
  | nil => simp at hh
  | cons a t =>
    simp only [List.head?_cons, Option.some.injEq] at hh
    subst hh
    simp [List.dropWhile_cons, hc]

theorem pyStripL_eq_self {l : List Char} {c d : Char}
    (hh : l.head? = some c) (hc : c.isWhitespace = false)
    (hg : l.getLast? = some d) (hd : d.isWhitespace = false) :
    pyStripL l = l := by
  unfold pyStripL
  rw [dropWhile_ws_eq_self hh hc]
  have hrev : l.reverse.head? = some d := by
    rw [List.head?_reverse]; exact hg
  rw [dropWhile_ws_eq_self hrev hd, List.reverse_reverse]

theorem headNonWS_spec {s : String} (h : headNonWS s = true) :
    ∃ c t, s.data = c :: t ∧ c.isWhitespace = false := by
  unfold headNonWS at h
  cases hd : s.data with
  | nil => rw [hd] at h; simp at h
  | cons c t =>
    rw [hd] at h
    simp only [List.head?_cons, Bool.not_eq_true'] at h
    exact ⟨c, t, rfl, h⟩

theorem lastNonWS_spec {s : String} (h : lastNonWS s = true) :
    ∃ d, s.data.getLast? = some d ∧ d.isWhitespace = false := by
  unfold lastNonWS at h
  cases hd : s.data.getLast? with
  | none => rw [hd] at h; simp at h
  | some d =>
    rw [hd] at h
    simp only [Bool.not_eq_true'] at h
    exact ⟨d, rfl, h⟩

/-- A string whose two edges are non-whitespace is a fixpoint of
`pyStrip`. -/
theorem pyStrip_eq_self {s : String} (h1 : headNonWS s = true)
    (h2 : lastNonWS s = true) : pyStrip s = s := by
  obtain ⟨c, t, hct, hc⟩ := headNonWS_spec h1
  obtain ⟨d, hgd, hd⟩ := lastNonWS_spec h2
  unfold pyStrip
  rw [pyStripL_eq_self (by rw [hct]; rfl) hc hgd hd]

theorem headNonWS_ne_empty {s : String} (h : headNonWS s = true) : s ≠ "" := by
  obtain ⟨c, t, hct, _⟩ := headNonWS_spec h
  intro he
  rw [he] at hct
  simp at hct

/-- Stripping a concatenation whose left edge and right edge are already
non-whitespace changes nothing, whatever sits in the middle. -/
theorem pyStrip_append {a m b : String}
    (ha : headNonWS a = true) (hb : lastNonWS b = true) :
    pyStrip (a ++ m ++ b) = a ++ m ++ b := by
  obtain ⟨c, t, hct, hc⟩ := headNonWS_spec ha
  obtain ⟨d, hgd, hd⟩ := lastNonWS_spec hb
  have hbne : b.data ≠ [] := by
    intro he; rw [he] at hgd; simp at hgd
  have hdata : (a ++ m ++ b).data = a.data ++ m.data ++ b.data := by
    rw [String.data_append, String.data_append]
  have hh : (a ++ m ++ b).data.head? = some c := by
    rw [hdata, List.append_assoc, hct]; rfl
  have hg : (a ++ m ++ b).data.getLast? = some d := by
    rw [hdata, List.getLast?_append_of_ne_nil _ hbne]
    exact hgd
  unfold pyStrip
  rw [pyStripL_eq_self hh hc hg hd]

/-! ## Lemmas about the Backend Client -/

theorem get_ai_response_success (messages : List Msg) (name : String)
    (content : String) :
    get_ai_response true messages name (ApiOutcome.success content)
      = pyStrip content := rfl

theorem get_ai_response_fault (messages : List Msg) (name : String)
    (f : ApiFault) :
    get_ai_response true messages name (ApiOutcome.ofFault f)
      = faultMessage f := by
  cases f <;> rfl

/-! ## Lemmas about the fixed-size splitting -/

theorem sliceChunks_join_of_le {L n : Nat} :
    ∀ l : List Char, l.length ≤ n * L →
      ((List.range n).map (fun i => List.take L (List.drop (i * L) l))).flatten
        = l := by
  induction n with
  | zero =>
    intro l hl
    simp only [Nat.zero_mul, Nat.le_zero, List.length_eq_zero] at hl
    simp [hl]
  | succ n ih =>
    intro l hl
    rw [List.range_succ_eq_map]
    simp only [List.map_cons, List.map_map, List.flatten_cons, Nat.zero_mul,
      List.drop_zero]
    have hstep : ∀ i : Nat,
        List.take L (List.drop (Nat.succ i * L) l)
          = List.take L (List.drop (i * L) (List.drop L l)) := by
      intro i
      rw [List.drop_drop, Nat.succ_mul, Nat.add_comm (i * L) L]
    have hmap :
        (List.range n).map ((fun i => List.take L (List.drop (i * L) l)) ∘ Nat.succ)
          = (List.range n).map (fun i => List.take L (List.drop (i * L) (List.drop L l))) := by
      apply List.map_congr_left
      intro i _
      exact hstep i
    rw [Nat.succ_mul] at hl
    rw [hmap, ih (List.drop L l) (by simp only [List.length_drop]; omega)]
    exact List.take_append_drop L l

/-- The slices reconstruct the original character list exactly. -/
theorem sliceChunks_join {L : Nat} (hL : 1 ≤ L) (l : List Char) :
    (sliceChunks l L).flatten = l := by
  unfold sliceChunks
  apply sliceChunks_join_of_le
  have hd := Nat.div_add_mod (l.length + L - 1) L
  rw [Nat.mul_comm] at hd
  have hm := Nat.mod_lt (l.length + L - 1) (show 0 < L by omega)
  omega

/-- Every slice has at most `L` characters. -/
theorem sliceChunks_length_le {L : Nat} (l : List Char) :
    ∀ part ∈ sliceChunks l L, part.length ≤ L := by
  intro part hp
  unfold sliceChunks at hp
  obtain ⟨i, _, rfl⟩ := List.mem_map.mp hp
  simp [List.length_take]

/-- There are exactly `ceil(len / L)` slices. -/
theorem sliceChunks_count (l : List Char) (L : Nat) :
    (sliceChunks l L).length = (l.length + L - 1) / L := by
  unfold sliceChunks
  simp

/-! ## Invariants of the queue/dispatcher system -/

theorem inflight_eq_phaseInflight {s : SysState} (h : Reachable s) :
    s.inflight = phaseInflight s.phase := by
  induction h with
  | init => rfl
  | step _ hstep ih =>
    cases hstep with
    | enqueue j => exact ih
    | dequeue j rest hph hq => rw [ih, hph]; rfl
    | beginCall j hph => rw [ih, hph]; rfl
    | endCall j hph => rw [ih, hph]; rfl
    | completeJob j hph => rw [ih, hph]; rfl

/-- FIFO bookkeeping invariant: what was enqueued is exactly what has been
dispatched followed by what is still pending, in order. -/
theorem enqueued_eq_started_append_queue {s : SysState} (h : Reachable s) :
    s.enqueued = s.started ++ s.queue := by
  induction h with
  | init => rfl
  | step _ hstep ih =>
    cases hstep with
    | enqueue j =>
        show _ ++ [j] = _ ++ (_ ++ [j])
        rw [ih, List.append_assoc]
    | dequeue j rest hph hq =>
        show _ = (_ ++ [j]) ++ rest
        rw [ih, hq, List.append_assoc]
        rfl
    | beginCall j hph => exact ih
    | endCall j hph => exact ih
    | completeJob j hph => exact ih

theorem c1ExState_reachable : Reachable c1ExState := by
  have h0 : Reachable initState := Reachable.init
  have h1 := Reachable.step h0 (Step.enqueue initState jobA)
  have h2 := Reachable.step h1 (Step.enqueue _ jobB)
  have h3 := Reachable.step h2 (Step.dequeue _ jobA [jobB] rfl rfl)
  exact h3

theorem c2ExState_reachable : Reachable c2ExState := by
  have h0 : Reachable initState := Reachable.init
  have h1 := Reachable.step h0 (Step.enqueue initState jobA)
  have h2 := Reachable.step h1 (Step.dequeue _ jobA [] rfl rfl)
  have h3 := Reachable.step h2 (Step.beginCall _ jobA rfl)
  exact h3

/-! ## Characterization lemmas for the handlers -/

theorem process_chat_job_persisted (inp : ChatJobInput) (clientOk : Bool)
    (outcome : ApiOutcome) (er : EditResult) :
    (process_chat_job inp clientOk outcome er).persisted =
      if persistGuard (get_ai_response clientOk (chatPromptMessages inp)
          inp.userDisplayName outcome) then
        [Msg.mk "user" inp.userText,
         Msg.mk "assistant" (get_ai_response clientOk (chatPromptMessages inp)
            inp.userDisplayName outcome)]
      else [] := rfl

theorem process_chat_job_consolidation (inp : ChatJobInput) (clientOk : Bool)
    (outcome : ApiOutcome) (er : EditResult) :
    (process_chat_job inp clientOk outcome er).consolidationEnqueued =
      (persistGuard (get_ai_response clientOk (chatPromptMessages inp)
          inp.userDisplayName outcome)
        && consolidationDue inp.memEnabled inp.totalMessages) := rfl

theorem process_chat_job_delivered (inp : ChatJobInput) (clientOk : Bool)
    (outcome : ApiOutcome) (er : EditResult) :
    (process_chat_job inp clientOk outcome er).delivered =
      send_final_response (get_ai_response clientOk (chatPromptMessages inp)
          inp.userDisplayName outcome) inp.hasPlaceholder er := rfl

theorem process_memory_job_success {hist : List Msg} (hne : hist ≠ [])
    (store : Option String) (name : String) (content : String) :
    process_memory_job hist store true name (ApiOutcome.success content) =
      if pyStrip content = "" then
        { stored := store, noticeSent := false, retryEnqueued := false }
      else
        { stored := some (pyStrip (match store with
            | some old =>
                if old = "" then pyStrip content
                else old ++ "\n\n" ++ pyStrip content
            | none => pyStrip content))
          noticeSent := true, retryEnqueued := false } := by
  unfold process_memory_job
  rw [if_neg hne]
  rfl

theorem process_memory_job_fault {hist : List Msg} (hne : hist ≠ [])
    (store : Option String) (name : String) (f : ApiFault) :
    process_memory_job hist store true name (ApiOutcome.ofFault f) =
      { stored := some (pyStrip (match store with
          | some old =>
              if old = "" then faultMessage f
              else old ++ "\n\n" ++ faultMessage f
          | none => faultMessage f))
        noticeSent := true, retryEnqueued := false } := by
  unfold process_memory_job
  rw [if_neg hne]
  cases f <;> rfl

theorem c9BigText_length : c9BigText.length = 10000 := by
  show (String.mk (List.replicate 10000 'a')).length = 10000
  rw [String.length_mk, List.length_replicate]

/-! ## Claim theorems -/

/-- C1: for every sequence of jobs enqueued into `REQUEST_QUEUE`, the
`ai_worker` dispatcher dequeues and starts their handlers in exactly the
enqueue order: in every reachable state of the queue/dispatcher system the
dispatch-order list `started` is an initial segment of the enqueue-order
list `enqueued` (the still-pending rest follows it), for every interleaving
of producers and worker and for every job kind, since `Step.dequeue` always
takes the head job regardless of its kind. -/
theorem c1_fifo_dispatch_order (s : SysState) (h : Reachable s) :
    ∃ pending : List Job, s.started ++ pending = s.enqueued :=
  ⟨s.queue, (enqueued_eq_started_append_queue h).symm⟩

/-- Witness for C1 at a concrete reachable state: two jobs enqueued, the
first dispatched. -/
theorem c1_fifo_dispatch_order_witness :
    ∃ pending : List Job, c1ExState.started ++ pending = c1ExState.enqueued :=
  c1_fifo_dispatch_order c1ExState c1ExState_reachable

/-- C2: at most one Backend Client completion call is in flight
system-wide, in every reachable state, under arbitrarily interleaved
producer enqueues: the single `ai_worker` consumer awaits each handler (and
hence its one completion call) to completion before dequeuing again, so the
concurrent-call counter never exceeds 1. -/
theorem c2_at_most_one_inflight (s : SysState) (h : Reachable s) :
    s.inflight ≤ 1 := by
  rw [inflight_eq_phaseInflight h]
  cases hp : s.phase <;> simp [phaseInflight]

/-- Witness for C2 at a concrete reachable state in which the Backend
Client call is in flight. -/
theorem c2_at_most_one_inflight_witness : c2ExState.inflight ≤ 1 :=
  c2_at_most_one_inflight c2ExState c2ExState_reachable

/-- C3: a handler fault never terminates the dispatcher loop: for every
fault oracle and every job sequence, the `ai_worker` loop still dispatches
every job in order (so the job after a raising one is always processed),
and each raising job contributes exactly one logged-error event. -/
theorem c3_handler_fault_isolated :
    ∀ (handlerRaises : Job → Bool) (jobs : List Job),
      ranJobs (ai_worker_run handlerRaises jobs) = jobs ∧
      (ai_worker_run handlerRaises jobs).length
        = jobs.length + (jobs.filter handlerRaises).length := by
  intro handlerRaises jobs
  induction jobs with
  | nil => exact ⟨rfl, rfl⟩
  | cons j rest ih =>
    obtain ⟨ih1, ih2⟩ := ih
    cases hj : handlerRaises j <;>
      simp [ai_worker_run, ranJobs, hj, ih1, ih2, List.filter_cons] <;>
      omega

/-- C4: with `MEMORY_CONSOLIDATION_INTERVAL = 15` and memory enabled, a
successful chat turn enqueues a `consolidate_memory` job precisely when
the total persisted message count including the user and assistant
messages just written (`total_messages + 2`) is a multiple of 15 — so
exactly one job at each threshold 15, 30, 45, ... and none at any other
count. -/
theorem c4_consolidation_trigger (inp : ChatJobInput) (content : String)
    (er : EditResult)
    (hmem : inp.memEnabled = true)
    (hne : pyStrip content ≠ "")
    (herr : pyIn "error" (pyStrip content) = false)
    (hto : pyIn "timed out" (pyStrip content) = false) :
    ((process_chat_job inp true (ApiOutcome.success content) er).consolidationEnqueued
        = true
      ↔ (inp.totalMessages + 2) % MEMORY_CONSOLIDATION_INTERVAL = 0) := by
  rw [process_chat_job_consolidation]
  rw [get_ai_response_success]
  have h1 : (pyStrip content == "") = false := beq_eq_false_iff_ne.mpr hne
  simp only [persistGuard, consolidationDue, h1, herr, hto, hmem,
    MEMORY_CONSOLIDATION_INTERVAL, Bool.not_false, Bool.and_self,
    Bool.true_and, Bool.and_eq_true, beq_iff_eq, decide_eq_true_eq]
  omega

/-- Witness for C4 at total count 13, i.e. 15 including the pair just
written: the trigger fires. -/
theorem c4_consolidation_trigger_witness :
    ((process_chat_job c4ExInput true (ApiOutcome.success "Sure!")
        EditResult.ok).consolidationEnqueued = true
      ↔ (13 + 2) % MEMORY_CONSOLIDATION_INTERVAL = 0) :=
  c4_consolidation_trigger c4ExInput "Sure!" EditResult.ok rfl
    (by decide) (by decide) (by decide)

/-- C5 fails on the code: when the Backend Client call raises
`APIConnectionError` (the Unreachable fault), the fixed connection-failure
message is delivered as claimed, but — because that message contains
neither `"error"` nor `"timed out"` — the substring guard passes and the
faulted turn IS persisted (user text plus the fault message as the
assistant reply), contradicting "persistence of the turn happens only on a
successful completion". -/
theorem c5_unreachable_fault_turn_persisted :
    (process_chat_job c5ExInput true ApiOutcome.connectionErr
        EditResult.ok).persisted
      = [Msg.mk "user" "hello", Msg.mk "assistant" connectionMessage] ∧
    (process_chat_job c5ExInput true ApiOutcome.connectionErr
        EditResult.ok).delivered
      = [SendAction.post connectionMessage] := by
  constructor
  · rfl
  · rfl

/-- C6: memory consolidation never replaces the stored summary: running
the consolidation handler twice with successful summaries `a` then `b`
(each non-empty with non-whitespace edges, so `strip()` is inert on them)
leaves the store holding `a ++ "\n\n" ++ b` — `a` is preserved as an
initial segment and `b` is concatenated after it. -/
theorem c6_summaries_accumulate (h1 h2 : List Msg) (n1 n2 : String)
    (a b : String) (hh1 : h1 ≠ []) (hh2 : h2 ≠ [])
    (ha1 : headNonWS a = true) (ha2 : lastNonWS a = true)
    (hb1 : headNonWS b = true) (hb2 : lastNonWS b = true) :
    (process_memory_job h2
        (process_memory_job h1 none true n1 (ApiOutcome.success a)).stored
        true n2 (ApiOutcome.success b)).stored
      = some (a ++ "\n\n" ++ b) ∧
    ∃ rest : String, a ++ rest = a ++ "\n\n" ++ b := by
  have hsa : pyStrip a = a := pyStrip_eq_self ha1 ha2
  have hsb : pyStrip b = b := pyStrip_eq_self hb1 hb2
  have hane : a ≠ "" := headNonWS_ne_empty ha1
  have hbne : b ≠ "" := headNonWS_ne_empty hb1
  have hr1 : process_memory_job h1 none true n1 (ApiOutcome.success a)
      = { stored := some a, noticeSent := true, retryEnqueued := false } := by
    rw [process_memory_job_success hh1, hsa, if_neg hane]
    rw [hsa]
  rw [hr1]
  rw [process_memory_job_success hh2, hsb, if_neg hbne]
  constructor
  · show some (pyStrip (if a = "" then b else a ++ "\n\n" ++ b))
        = some (a ++ "\n\n" ++ b)
    rw [if_neg hane, pyStrip_append ha1 hb2]
  · refine ⟨"\n\n" ++ b, ?_⟩
    apply String.ext
    simp [String.data_append, List.append_assoc]

/-- Witness for C6 with the literal summaries `"A"` then `"B"`. -/
theorem c6_summaries_accumulate_witness :
    (process_memory_job c6ExHistory2
        (process_memory_job c6ExHistory1 none true "Alice"
          (ApiOutcome.success "A")).stored
        true "Alice" (ApiOutcome.success "B")).stored
      = some ("A" ++ "\n\n" ++ "B") ∧
    ∃ rest : String, "A" ++ rest = "A" ++ "\n\n" ++ "B" :=
  c6_summaries_accumulate c6ExHistory1 c6ExHistory2 "Alice" "Alice" "A" "B"
    (by decide) (by decide) (by decide) (by decide) (by decide) (by decide)

/-- C7 counterexample: a `consolidate_memory` job whose Backend Client
call raises a timeout does NOT leave the stored summary unchanged and DOES
emit the "memory formed" notice, because `_get_ai_response` returns the
fault text (which is truthy) and `process_memory_job` treats it as a
summary. -/
theorem c7_fault_result_stored_counterexample :
    (process_memory_job [Msg.mk "user" "x"] (some "S") true "Alice"
        ApiOutcome.timeoutErr).stored ≠ some "S" ∧
    (process_memory_job [Msg.mk "user" "x"] (some "S") true "Alice"
        ApiOutcome.timeoutErr).noticeSent = true := by
  constructor
  · intro h
    exact absurd h (by decide)
  · rfl

/-- C7 (amended): a `consolidate_memory` job whose Backend Client call
yields an EMPTY result leaves the stored summary unchanged, emits no
notice, and enqueues no retry; a FAULTED call instead yields the fault's
user-safe message text, which is treated as a summary: on non-empty
history it is persisted and the notice is emitted.  In no case is a retry
enqueued. -/
theorem c7_empty_result_dropped_fault_stored (hist : List Msg)
    (store : Option String) (name : String) (content : String) (f : ApiFault)
    (hempty : pyStrip content = "") :
    ((process_memory_job hist store true name
        (ApiOutcome.success content)).stored = store ∧
     (process_memory_job hist store true name
        (ApiOutcome.success content)).noticeSent = false ∧
     (process_memory_job hist store true name
        (ApiOutcome.success content)).retryEnqueued = false) ∧
    (process_memory_job hist store true name
        (ApiOutcome.ofFault f)).retryEnqueued = false ∧
    (hist = [] ∨
      (process_memory_job hist store true name
        (ApiOutcome.ofFault f)).noticeSent = true) := by
  by_cases hh : hist = []
  · subst hh
    refine ⟨⟨rfl, rfl, rfl⟩, ?_, Or.inl rfl⟩
    cases f <;> rfl
  · refine ⟨?_, ?_, Or.inr ?_⟩
    · rw [process_memory_job_success hh, if_pos hempty]
      exact ⟨rfl, rfl, rfl⟩
    · rw [process_memory_job_fault hh]
    · rw [process_memory_job_fault hh]

/-- Witness for C7 (amended): whitespace-only completion content (empty
after `strip()`) on a non-empty history, and a timeout fault. -/
theorem c7_empty_result_dropped_fault_stored_witness :
    ((process_memory_job [Msg.mk "user" "x"] (some "S") true "Alice"
        (ApiOutcome.success "  ")).stored = some "S" ∧
     (process_memory_job [Msg.mk "user" "x"] (some "S") true "Alice"
        (ApiOutcome.success "  ")).noticeSent = false ∧
     (process_memory_job [Msg.mk "user" "x"] (some "S") true "Alice"
        (ApiOutcome.success "  ")).retryEnqueued = false) ∧
    (process_memory_job [Msg.mk "user" "x"] (some "S") true "Alice"
        (ApiOutcome.ofFault ApiFault.timeoutFault)).retryEnqueued = false ∧
    ([Msg.mk "user" "x"] = ([] : List Msg) ∨
      (process_memory_job [Msg.mk "user" "x"] (some "S") true "Alice"
        (ApiOutcome.ofFault ApiFault.timeoutFault)).noticeSent = true) :=
  c7_empty_result_dropped_fault_stored [Msg.mk "user" "x"] (some "S")
    "Alice" "  " ApiFault.timeoutFault (by decide)

/-- C8: the Backend Client boundary (`_get_ai_response`) never propagates
a fault: for every message list and display name, each fault kind is
mapped to its fixed, pre-defined, non-empty user-safe message returned as
the completion text (independent of the messages and the name), and a
successful call returns the stripped completion content. -/
theorem c8_every_fault_maps_to_fixed_text :
    (∀ (messages : List Msg) (name : String) (f : ApiFault),
        get_ai_response true messages name (ApiOutcome.ofFault f)
          = faultMessage f) ∧
    (∀ f : ApiFault, faultMessage f ≠ "") ∧
    (∀ (messages : List Msg) (name : String) (content : String),
        get_ai_response true messages name (ApiOutcome.success content)
          = pyStrip content) := by
  refine ⟨?_, ?_, ?_⟩
  · intro messages name f
    exact get_ai_response_fault messages name f
  · intro f
    cases f <;> decide
  · intro messages name content
    rfl

/-- C9: for every non-empty text longer than
`TELEGRAM_MAX_MESSAGE_LENGTH`, the fallback path of `send_final_response`
splits it into consecutive fixed-size chunks of at most that length, posts
them in order, their in-order concatenation is exactly the original text,
and the number of parts is `ceil(length / max)` — in particular 3 parts
for a 10,000-character text. -/
theorem c9_long_text_split (t : String) (er : EditResult)
    (hne : t ≠ "")
    (hlong : TELEGRAM_MAX_MESSAGE_LENGTH < t.length) :
    ∃ parts : List String,
      send_final_response t false er = parts.map SendAction.post ∧
      (∀ p ∈ parts, p.length ≤ TELEGRAM_MAX_MESSAGE_LENGTH) ∧
      (parts.map String.data).flatten = t.data ∧
      parts.length = (t.length + TELEGRAM_MAX_MESSAGE_LENGTH - 1)
        / TELEGRAM_MAX_MESSAGE_LENGTH := by
  refine ⟨(sliceChunks t.data TELEGRAM_MAX_MESSAGE_LENGTH).map String.mk,
    ?_, ?_, ?_, ?_⟩
  · show send_final_response t false er = _
    unfold send_final_response
    simp only [if_neg hne, Bool.false_eq_true, if_false]
    unfold postParts
    rw [if_neg (Nat.not_le.mpr hlong), List.map_map]
    rfl
  · intro p hp
    obtain ⟨part, hpart, rfl⟩ := List.mem_map.mp hp
    rw [String.length_mk]
    exact sliceChunks_length_le t.data part hpart
  · rw [List.map_map]
    have : (String.data ∘ String.mk) = id := rfl
    rw [this, List.map_id]
    exact sliceChunks_join (by decide) t.data
  · rw [List.length_map, sliceChunks_count, String.length]

/-- Witness for C9: a 10,000-character text yields exactly 3 ordered posts
reassembling the original. -/
theorem c9_long_text_split_witness :
    ∃ parts : List String,
      send_final_response c9BigText false EditResult.ok
        = parts.map SendAction.post ∧
      (∀ p ∈ parts, p.length ≤ TELEGRAM_MAX_MESSAGE_LENGTH) ∧
      (parts.map String.data).flatten = c9BigText.data ∧
      parts.length = 3 := by
  obtain ⟨parts, hp1, hp2, hp3, hp4⟩ :=
    c9_long_text_split c9BigText EditResult.ok
      (by decide)
      (by rw [c9BigText_length]; decide)
  refine ⟨parts, hp1, hp2, hp3, ?_⟩
  rw [hp4, c9BigText_length]
  decide

/-- C10 (implicit): success is decided by substring inspection: a chat job
whose Backend Client call succeeds but whose (stripped) reply contains
`"error"` or `"timed out"` is delivered to the user as normal, yet the
turn is silently not persisted and the consolidation trigger is not
evaluated. -/
theorem c10_success_reply_with_error_substring_not_persisted
    (inp : ChatJobInput) (content : String) (er : EditResult)
    (h : pyIn "error" (pyStrip content) = true
      ∨ pyIn "timed out" (pyStrip content) = true) :
    (process_chat_job inp true (ApiOutcome.success content) er).persisted
        = [] ∧
    (process_chat_job inp true (ApiOutcome.success content)
        er).consolidationEnqueued = false ∧
    (process_chat_job inp true (ApiOutcome.success content) er).delivered
        = send_final_response (pyStrip content) inp.hasPlaceholder er := by
  have hguard : persistGuard (pyStrip content) = false := by
    rcases h with h | h <;> simp [persistGuard, h]
  refine ⟨?_, ?_, ?_⟩
  · rw [process_chat_job_persisted, get_ai_response_success, hguard]
    rfl
  · rw [process_chat_job_consolidation, get_ai_response_success, hguard]
    rfl
  · rw [process_chat_job_delivered, get_ai_response_success]

/-- Witness for C10: a successful reply that happens to contain the word
"error" is delivered but not persisted. -/
theorem c10_success_reply_with_error_substring_not_persisted_witness :
    (process_chat_job c10ExInput true
        (ApiOutcome.success "an error occurred in my story")
        EditResult.ok).persisted = [] ∧
    (process_chat_job c10ExInput true
        (ApiOutcome.success "an error occurred in my story")
        EditResult.ok).consolidationEnqueued = false ∧
    (process_chat_job c10ExInput true
        (ApiOutcome.success "an error occurred in my story")
        EditResult.ok).delivered
      = send_final_response (pyStrip "an error occurred in my story")
          c10ExInput.hasPlaceholder EditResult.ok :=
  c10_success_reply_with_error_substring_not_persisted c10ExInput
    "an error occurred in my story" EditResult.ok (Or.inl (by decide))

end TelegramAIBot
